import Mathlib

/-!
# Verification of the Minecraft raw-material calculator

A shallow embedding of `src/main.py`: a batch-based crafting calculator.
Python floats are modelled as exact rationals `ℚ`, Python ints as `ℤ`
(`Nat` where the source guarantees non-negativity), Python dicts as
insertion-ordered association lists, and Python exceptions as the
`Except PyError` monad.  The interactive `run` loop is embedded as a
step function on an explicit state type, one state per `input()` call.
-/

/-- Python exceptions that the calculator can raise: the item-not-found
`ValueError` of the resolver, the `ValueError` that `int(s)` raises on a
literal it cannot parse, and `ZeroDivisionError`. -/
inductive PyError : Type
  | valueError (item : String) (matName : String)
  | valueErrorInt (literal : String)
  | zeroDivisionError
  deriving Repr, DecidableEq

/-- One entry of a recipe dict: `{"batch_output": ..., "raw_per_batch": ...}`.
Both values come from JSON numbers, so both are modelled as rationals;
the source converts them with `int(...)` / `float(...)` at use sites. -/
structure RecipeEntry : Type where
  batch_output : ℚ
  raw_per_batch : ℚ
  deriving Repr, DecidableEq

/-- Python `int(x)` on a (real) number: truncation toward zero. -/
def int_py (x : ℚ) : ℤ :=
  if 0 ≤ x then ⌊x⌋ else ⌈x⌉

/-- Python dict lookup `d[k]` / `k in d`, on an association list. -/
def lookup' {β : Type} (key : String) : List (String × β) → Option β
  | [] => none
  | (k, v) :: rest => if key = k then some v else lookup' key rest

/-- Class `Material` from `src/main.py`: a raw material name and its recipe dict. -/
structure Material : Type where
  name : String
  recipes : List (String × RecipeEntry)
  deriving Repr, DecidableEq

/-- Method `Material.raw_units_needed` from `src/main.py` lines 18–34:
raise `ValueError` when the item is absent, read `batch_output` with
`int(...)` and `raw_per_batch` with `float(...)`, raise
`ZeroDivisionError` when `quantity / batch_output` divides by zero,
otherwise return `ceil(quantity / batch_output) * raw_per_batch`. -/
def Material.raw_units_needed (m : Material) (item : String) (quantity : ℤ) :
    Except PyError ℚ :=
  match lookup' item m.recipes with
  | none => .error (.valueError item m.name)
  | some entry =>
    let batch_output : ℤ := int_py entry.batch_output
    let raw_per_batch : ℚ := entry.raw_per_batch
    if batch_output = 0 then
      .error .zeroDivisionError
    else
      let batches_required : ℤ := ⌈(quantity : ℚ) / (batch_output : ℚ)⌉
      .ok ((batches_required : ℚ) * raw_per_batch)

/-- The hard-coded fallback data of `MinecraftCalculator.__init__`
(`src/main.py` lines 44–53). -/
def defaultRecipesData : List (String × List (String × RecipeEntry)) :=
  [("wood",
      [("plank", ⟨4, 1.0⟩),
       ("stick", ⟨4, 0.25⟩),
       ("door", ⟨3, 1.5⟩)]),
   ("cobblestone",
      [("furnace", ⟨1, 8.0⟩)])]

/-- Outcome of `open(recipe_file)` followed by `json.load`: either the file
is missing (`FileNotFoundError`), its content is malformed
(`json.JSONDecodeError`), or parsing succeeds with some data. -/
inductive ConfigSource : Type
  | missing
  | malformed
  | parsed (data : List (String × List (String × RecipeEntry)))
  deriving Repr, DecidableEq

/-- Constructor `MinecraftCalculator.__init__` (`src/main.py` lines 37–58): use the
parsed data when loading succeeds, fall back to `defaultRecipesData` on
`FileNotFoundError` or `json.JSONDecodeError`, then build one `Material`
per raw material.  Total: no exception escapes. -/
def calculatorMaterials (src : ConfigSource) : List (String × Material) :=
  let recipes_data :=
    match src with
    | .parsed d => d
    | .missing => defaultRecipesData
    | .malformed => defaultRecipesData
  recipes_data.map (fun p => (p.1, Material.mk p.1 p.2))

/-- Method `MinecraftCalculator.list_materials` (`src/main.py` lines 60–65),
abstracting the printing: the sequence of material names in the order
they are printed, `sorted(self.materials.keys())`. -/
def list_materials (materials : List (String × Material)) : List String :=
  (materials.map Prod.fst).mergeSort (· ≤ ·)

/-- The whitespace set of Python `str.strip()` / `str.isspace()`
(CPython `Py_UNICODE_ISSPACE`): 09–0D, 1C–1F, space, 85, A0, 1680,
2000–200A, 2028, 2029, 202F, 205F, 3000. -/
def isspace_py (c : Char) : Bool :=
  let n := c.toNat
  (0x09 ≤ n && n ≤ 0x0D) || (0x1C ≤ n && n ≤ 0x20) || n == 0x85 || n == 0xA0 ||
  n == 0x1680 || (0x2000 ≤ n && n ≤ 0x200A) || n == 0x2028 || n == 0x2029 ||
  n == 0x202F || n == 0x205F || n == 0x3000

/-- Python `s.strip()`: drop leading and trailing whitespace characters.
List-based so that it evaluates by kernel reduction. -/
def strip_py (s : String) : String :=
  ⟨((s.toList.dropWhile isspace_py).reverse.dropWhile isspace_py).reverse⟩

/-- Python `s.lower()`.  Only ASCII case mapping is modelled (Lean's
`Char.toLower`); the loop applies it to material and item names, and no
claim here depends on non-ASCII case folding. -/
def pyLower (s : String) : String :=
  ⟨s.toList.map Char.toLower⟩

/-- Python `s.strip().lower()` as applied to user input in `run`. -/
def pyNorm (s : String) : String :=
  pyLower (strip_py s)

/-- The value of a Unicode decimal digit (category Nd), `none` otherwise.
Modelled blocks: ASCII `0`–`9`, Arabic-Indic `٠`–`٩`, Extended
Arabic-Indic `۰`–`۹`, Devanagari `०`–`९`, and fullwidth `０`–`９`;
the remaining Nd blocks behave exactly alike and are not needed by any
claim. -/
def nd_digit? (c : Char) : Option ℕ :=
  let n := c.toNat
  if 0x30 ≤ n && n ≤ 0x39 then some (n - 0x30)
  else if 0x660 ≤ n && n ≤ 0x669 then some (n - 0x660)
  else if 0x6F0 ≤ n && n ≤ 0x6F9 then some (n - 0x6F0)
  else if 0x966 ≤ n && n ≤ 0x96F then some (n - 0x966)
  else if 0xFF10 ≤ n && n ≤ 0xFF19 then some (n - 0xFF10)
  else none

/-- The per-character test of Python `str.isdigit()`: true for characters
with Numeric_Type Decimal (category Nd, via `nd_digit?`) or
Numeric_Type Digit — the superscript digits `¹²³` (B9, B2, B3),
`⁰` and `⁴`–`⁹` (2070, 2074–2079) and the subscript digits `₀`–`₉`
(2080–2089).  Crucially, `int()` cannot parse the Digit-only characters. -/
def isdigit_py (c : Char) : Bool :=
  (nd_digit? c).isSome ||
  c.toNat == 0xB2 || c.toNat == 0xB3 || c.toNat == 0xB9 ||
  c.toNat == 0x2070 || (0x2074 ≤ c.toNat && c.toNat ≤ 0x2079) ||
  (0x2080 ≤ c.toNat && c.toNat ≤ 0x2089)

/-- Python `s.isdigit()`: non-empty and every character passes
`isdigit_py`. -/
def str_isdigit_py (s : String) : Bool :=
  !s.isEmpty && s.toList.all isdigit_py

/-- Python `int(s)` as the loop calls it — on a string that already passed
`isdigit()`, so no sign, whitespace or underscore handling arises: it
succeeds with the base-10 value iff every character is a decimal digit
(category Nd), and raises `ValueError` (here `none`) otherwise, e.g. on
superscripts, which are `isdigit()` but not decimal. -/
def int_of_digits? (s : String) : Option ℤ :=
  if !s.isEmpty && s.toList.all (fun c => (nd_digit? c).isSome) then
    some ((s.toList.foldl (fun n c => 10 * n + (nd_digit? c).getD 0) 0 : ℕ) : ℤ)
  else
    none

/-- The program points of `MinecraftCalculator.run` (`src/main.py` lines
79–109) at which `input()` is called, plus the exit point.  Local
variables live at that point are carried in the state. -/
inductive LoopState : Type
  | selectMaterial
  | selectItem (matName : String) (mat : Material)
  | enterQuantity (matName : String) (mat : Material) (item : String)
  | done
  deriving Repr, DecidableEq

/-- What one step of the loop prints (diagnostics and results),
abstracting the exact wording. -/
inductive Output : Type
  | goodbye
  | invalidMaterial (choice : String)
  | itemsListed (matName : String)
  | promptQuantity
  | invalidQuantity
  | result (raw : ℚ)
  | invalidItem (item : String) (matName : String)
  | noOutput
  deriving Repr, DecidableEq

/-- One step of `MinecraftCalculator.run`: consume one input line at the
given program point.  `.error` means a Python exception escapes the loop
(fatal).  Mirrors `src/main.py` lines 84–109; in the quantity guard
`not qty_str.isdigit() or int(qty_str) <= 0` the `or` short-circuits, so
`int()` — which can itself raise `ValueError` — runs only once
`isdigit()` has returned true. -/
def step (mats : List (String × Material)) :
    LoopState → String → Except PyError (LoopState × Output)
  | .selectMaterial, line =>
    let choice := pyNorm line
    if choice = "q" then
      .ok (.done, .goodbye)
    else
      match lookup' choice mats with
      | none => .ok (.selectMaterial, .invalidMaterial choice)
      | some mat => .ok (.selectItem choice mat, .itemsListed choice)
  | .selectItem matName mat, line =>
    let item := pyNorm line
    match lookup' item mat.recipes with
    | none => .ok (.selectMaterial, .invalidItem item matName)
    | some _ => .ok (.enterQuantity matName mat item, .promptQuantity)
  | .enterQuantity _matName mat item, line =>
    let qty_str := strip_py line
    if ¬ str_isdigit_py qty_str = true then
      .ok (.selectMaterial, .invalidQuantity)
    else
      match int_of_digits? qty_str with
      | none => .error (.valueErrorInt qty_str)
      | some qty =>
        if qty ≤ 0 then
          .ok (.selectMaterial, .invalidQuantity)
        else
          match mat.raw_units_needed item qty with
          | .error e => .error e
          | .ok v => .ok (.selectMaterial, .result v)
  | .done, _ => .ok (.done, .noOutput)

/-- Run the loop over a finite script of input lines, threading the state;
an unconsumed script end models the loop blocking on `input()`. -/
def runSession (mats : List (String × Material)) :
    LoopState → List String → Except PyError LoopState
  | s, [] => .ok s
  | s, line :: rest =>
    match step mats s line with
    | .error e => .error e
    | .ok (s', _) => runSession mats s' rest

/-! ## Helper lemmas -/

lemma int_py_intCast (b : ℤ) : int_py (b : ℚ) = b := by
  unfold int_py
  split
  · exact Int.floor_intCast b
  · exact Int.ceil_intCast b

lemma raw_units_needed_of_lookup (m : Material) (item : String) (q : ℤ) (e : RecipeEntry)
    (hl : lookup' item m.recipes = some e) (h0 : int_py e.batch_output ≠ 0) :
    m.raw_units_needed item q =
      .ok ((⌈(q : ℚ) / (int_py e.batch_output : ℚ)⌉ : ℚ) * e.raw_per_batch) := by
  unfold Material.raw_units_needed
  rw [hl]
  simp [h0]

lemma raw_units_needed_of_intCast (m : Material) (item : String) (q : ℤ) (e : RecipeEntry)
    (b : ℤ) (hl : lookup' item m.recipes = some e) (hb : e.batch_output = (b : ℚ))
    (hb0 : b ≠ 0) :
    m.raw_units_needed item q = .ok ((⌈(q : ℚ) / (b : ℚ)⌉ : ℚ) * e.raw_per_batch) := by
  have h := raw_units_needed_of_lookup m item q e hl
    (by rw [hb, int_py_intCast]; exact hb0)
  rw [hb, int_py_intCast] at h
  exact h

lemma cast_pos_of_one_le {b : ℤ} (hb : 1 ≤ b) : (0 : ℚ) < (b : ℚ) := by
  exact_mod_cast lt_of_lt_of_le Int.zero_lt_one hb

lemma ceil_div_mul_self (b k : ℤ) (hb : b ≠ 0) :
    ⌈((b * k : ℤ) : ℚ) / (b : ℚ)⌉ = k := by
  have hbq : (b : ℚ) ≠ 0 := Int.cast_ne_zero.mpr hb
  push_cast
  rw [mul_div_cancel_left₀ _ hbq, Int.ceil_intCast]

lemma ceil_div_eq_one (b q : ℤ) (hb : 1 ≤ b) (h0 : 0 < q) (hle : q ≤ b) :
    ⌈(q : ℚ) / (b : ℚ)⌉ = 1 := by
  have hbq : (0 : ℚ) < (b : ℚ) := cast_pos_of_one_le hb
  rw [Int.ceil_eq_iff]
  constructor
  · push_cast
    simpa using div_pos (by exact_mod_cast h0) hbq
  · push_cast
    exact (div_le_one hbq).mpr (by exact_mod_cast hle)

lemma ceil_div_succ_eq_two (b : ℤ) (hb : 1 ≤ b) :
    ⌈((b + 1 : ℤ) : ℚ) / (b : ℚ)⌉ = 2 := by
  have hbq : (0 : ℚ) < (b : ℚ) := cast_pos_of_one_le hb
  rw [Int.ceil_eq_iff]
  constructor
  · push_cast
    rw [show (2 : ℚ) - 1 = 1 by norm_num]
    exact (one_lt_div hbq).mpr (by linarith)
  · push_cast
    rw [div_le_iff₀ hbq]
    have : (1 : ℚ) ≤ (b : ℚ) := by exact_mod_cast hb
    linarith

/-! ## Claim theorems -/

/-- C1: for every recipe with `batch_output = b ≥ 1`, `raw_per_batch = r ≥ 0`
and every positive integer quantity `q`, `raw_units_needed` returns
`ceil(q / b) * r`; in particular `(b = 4, r = 0.25, q = 10)` gives `0.75`
and `(b = 1, r = 8.0, q = 3)` gives `24.0`. -/
theorem raw_units_needed_ceil_formula :
    (∀ (m : Material) (item : String) (e : RecipeEntry) (b q : ℤ),
      lookup' item m.recipes = some e →
      e.batch_output = (b : ℚ) → 1 ≤ b → 0 ≤ e.raw_per_batch → 0 < q →
      m.raw_units_needed item q =
        .ok ((⌈(q : ℚ) / (b : ℚ)⌉ : ℚ) * e.raw_per_batch)) ∧
    (Material.mk "wood" [("stick", ⟨4, 0.25⟩)]).raw_units_needed "stick" 10 =
      .ok 0.75 ∧
    (Material.mk "cobblestone" [("furnace", ⟨1, 8.0⟩)]).raw_units_needed "furnace" 3 =
      .ok 24 := by
  refine ⟨fun m item e b q hl hb hb1 _hr _hq => ?_, ?_, ?_⟩
  · exact raw_units_needed_of_intCast m item q e b hl hb (by omega)
  · norm_num [Material.raw_units_needed, lookup', int_py]
    rw [(by norm_num [Int.ceil_eq_iff] : ⌈(5 : ℚ) / 2⌉ = (3 : ℤ))]
    norm_num
  · norm_num [Material.raw_units_needed, lookup', int_py]

/-- Witness for C1: the general formula applied at a concrete recipe
`(b = 4, r = 1.0)` and quantity `5`. -/
theorem raw_units_needed_ceil_formula_witness :
    lookup' "plank" (Material.mk "wood" [("plank", ⟨4, 1.0⟩)]).recipes =
        some (RecipeEntry.mk 4 1.0) ∧
    (RecipeEntry.mk 4 1.0).batch_output = ((4 : ℤ) : ℚ) ∧
    (1 : ℤ) ≤ 4 ∧
    (0 : ℚ) ≤ (RecipeEntry.mk 4 1.0).raw_per_batch ∧
    (0 : ℤ) < 5 ∧
    (Material.mk "wood" [("plank", ⟨4, 1.0⟩)]).raw_units_needed "plank" 5 =
      .ok ((⌈(5 : ℚ) / ((4 : ℤ) : ℚ)⌉ : ℚ) * (RecipeEntry.mk 4 1.0).raw_per_batch) := by
  have h1 : lookup' "plank" (Material.mk "wood" [("plank", ⟨4, 1.0⟩)]).recipes =
      some (RecipeEntry.mk 4 1.0) := by simp [lookup']
  have h2 : (RecipeEntry.mk 4 1.0).batch_output = ((4 : ℤ) : ℚ) := by norm_num
  have h4 : (0 : ℚ) ≤ (RecipeEntry.mk 4 1.0).raw_per_batch := by norm_num
  exact ⟨h1, h2, by norm_num, h4, by norm_num,
    raw_units_needed_ceil_formula.1 _ "plank" _ 4 5 h1 h2 (by norm_num) h4 (by norm_num)⟩

/-- C3: `raw_units_needed` raises the invalid-item `ValueError` exactly when
the item is absent from the material's recipe dict; an absent item always
produces this error and nothing else. -/
theorem raw_units_needed_invalid_item_iff :
    ∀ (m : Material) (item : String) (q : ℤ),
      m.raw_units_needed item q = .error (.valueError item m.name) ↔
        lookup' item m.recipes = none := by
  intro m item q
  unfold Material.raw_units_needed
  cases h : lookup' item m.recipes with
  | none => simp
  | some e =>
    simp only [h]
    constructor
    · intro hcontra
      by_cases h0 : int_py e.batch_output = 0 <;> simp [h0] at hcontra
    · intro hcontra
      exact absurd hcontra (by simp)

/-- Witness for C3: looking up an absent item `"gold"` yields exactly the
invalid-item error. -/
theorem raw_units_needed_invalid_item_iff_witness :
    (Material.mk "wood" [("plank", ⟨4, 1.0⟩)]).raw_units_needed "gold" 2 =
        .error (.valueError "gold" "wood") ↔
      lookup' "gold" (Material.mk "wood" [("plank", ⟨4, 1.0⟩)]).recipes = none :=
  raw_units_needed_invalid_item_iff (Material.mk "wood" [("plank", ⟨4, 1.0⟩)]) "gold" 2

/-- C4: for a valid recipe (`b ≥ 1`, `r ≥ 0`): exact multiples of `b` need
exactly `k * r` (no rounding artifact), `q = b` yields `1 * r`, `q = b + 1`
yields `2 * r`, quantities below one batch still cost one full batch, and
the result is never negative for positive quantities. -/
theorem raw_units_needed_boundaries :
    ∀ (m : Material) (item : String) (e : RecipeEntry) (b : ℤ),
      lookup' item m.recipes = some e →
      e.batch_output = (b : ℚ) → 1 ≤ b → 0 ≤ e.raw_per_batch →
      ((∀ k : ℤ, 0 < k →
          m.raw_units_needed item (b * k) = .ok ((k : ℚ) * e.raw_per_batch)) ∧
       m.raw_units_needed item b = .ok (1 * e.raw_per_batch) ∧
       m.raw_units_needed item (b + 1) = .ok (2 * e.raw_per_batch) ∧
       (∀ q : ℤ, 0 < q → q < b →
          m.raw_units_needed item q = .ok (1 * e.raw_per_batch)) ∧
       (∀ (q : ℤ) (v : ℚ), 0 < q → m.raw_units_needed item q = .ok v → 0 ≤ v)) := by
  intro m item e b hl hb hb1 hr
  have hb0 : b ≠ 0 := by omega
  have hbq : (0 : ℚ) < (b : ℚ) := cast_pos_of_one_le hb1
  refine ⟨?_, ?_, ?_, ?_, ?_⟩
  · intro k hk
    rw [raw_units_needed_of_intCast m item (b * k) e b hl hb hb0]
    rw [ceil_div_mul_self b k hb0]
  · rw [raw_units_needed_of_intCast m item b e b hl hb hb0]
    rw [ceil_div_eq_one b b hb1 (by omega) le_rfl]
    norm_num
  · rw [raw_units_needed_of_intCast m item (b + 1) e b hl hb hb0]
    rw [ceil_div_succ_eq_two b hb1]
    norm_num
  · intro q hq hqb
    rw [raw_units_needed_of_intCast m item q e b hl hb hb0]
    rw [ceil_div_eq_one b q hb1 hq (le_of_lt hqb)]
    norm_num
  · intro q v hq hv
    rw [raw_units_needed_of_intCast m item q e b hl hb hb0] at hv
    have hceil : 0 < ⌈(q : ℚ) / (b : ℚ)⌉ :=
      Int.ceil_pos.mpr (div_pos (by exact_mod_cast hq) hbq)
    have : v = (⌈(q : ℚ) / (b : ℚ)⌉ : ℚ) * e.raw_per_batch := by
      injection hv with h
      exact h.symm
    rw [this]
    exact mul_nonneg (by exact_mod_cast le_of_lt hceil) hr

/-- Witness for C4: the boundary facts instantiated at recipe
`(b = 3, r = 1.5)` (the `door` recipe). -/
theorem raw_units_needed_boundaries_witness :
    lookup' "door" (Material.mk "wood" [("door", ⟨3, 1.5⟩)]).recipes =
        some (RecipeEntry.mk 3 1.5) ∧
    (RecipeEntry.mk 3 1.5).batch_output = ((3 : ℤ) : ℚ) ∧
    (1 : ℤ) ≤ 3 ∧
    (0 : ℚ) ≤ (RecipeEntry.mk 3 1.5).raw_per_batch ∧
    (Material.mk "wood" [("door", ⟨3, 1.5⟩)]).raw_units_needed "door" 3 =
      .ok (1 * (RecipeEntry.mk 3 1.5).raw_per_batch) := by
  have h1 : lookup' "door" (Material.mk "wood" [("door", ⟨3, 1.5⟩)]).recipes =
      some (RecipeEntry.mk 3 1.5) := by simp [lookup']
  have h2 : (RecipeEntry.mk 3 1.5).batch_output = ((3 : ℤ) : ℚ) := by norm_num
  have h4 : (0 : ℚ) ≤ (RecipeEntry.mk 3 1.5).raw_per_batch := by norm_num
  exact ⟨h1, h2, by norm_num, h4,
    (raw_units_needed_boundaries _ "door" _ 3 h1 h2 (by norm_num) h4).2.1⟩

/-- C5: for a fixed valid recipe the raw amount is monotonically
non-decreasing in the quantity. -/
theorem raw_units_needed_monotone :
    ∀ (m : Material) (item : String) (e : RecipeEntry) (b q1 q2 : ℤ),
      lookup' item m.recipes = some e →
      e.batch_output = (b : ℚ) → 1 ≤ b → 0 ≤ e.raw_per_batch →
      0 < q1 → q1 ≤ q2 →
      ∃ v1 v2 : ℚ,
        m.raw_units_needed item q1 = .ok v1 ∧
        m.raw_units_needed item q2 = .ok v2 ∧
        v1 ≤ v2 := by
  intro m item e b q1 q2 hl hb hb1 hr _h1 hle
  have hb0 : b ≠ 0 := by omega
  have hbq : (0 : ℚ) < (b : ℚ) := cast_pos_of_one_le hb1
  refine ⟨_, _, raw_units_needed_of_intCast m item q1 e b hl hb hb0,
    raw_units_needed_of_intCast m item q2 e b hl hb hb0, ?_⟩
  have hdiv : (q1 : ℚ) / (b : ℚ) ≤ (q2 : ℚ) / (b : ℚ) :=
    (div_le_div_iff_of_pos_right hbq).mpr (by exact_mod_cast hle)
  have hceil : ⌈(q1 : ℚ) / (b : ℚ)⌉ ≤ ⌈(q2 : ℚ) / (b : ℚ)⌉ := Int.ceil_mono hdiv
  exact mul_le_mul_of_nonneg_right (by exact_mod_cast hceil) hr

/-- Witness for C5: monotonicity at the `stick` recipe with quantities 5 and 9. -/
theorem raw_units_needed_monotone_witness :
    lookup' "stick" (Material.mk "wood" [("stick", ⟨4, 0.25⟩)]).recipes =
        some (RecipeEntry.mk 4 0.25) ∧
    (RecipeEntry.mk 4 0.25).batch_output = ((4 : ℤ) : ℚ) ∧
    (1 : ℤ) ≤ 4 ∧
    (0 : ℚ) ≤ (RecipeEntry.mk 4 0.25).raw_per_batch ∧
    (0 : ℤ) < 5 ∧ (5 : ℤ) ≤ 9 ∧
    (∃ v1 v2 : ℚ,
      (Material.mk "wood" [("stick", ⟨4, 0.25⟩)]).raw_units_needed "stick" 5 = .ok v1 ∧
      (Material.mk "wood" [("stick", ⟨4, 0.25⟩)]).raw_units_needed "stick" 9 = .ok v2 ∧
      v1 ≤ v2) := by
  have h1 : lookup' "stick" (Material.mk "wood" [("stick", ⟨4, 0.25⟩)]).recipes =
      some (RecipeEntry.mk 4 0.25) := by simp [lookup']
  have h2 : (RecipeEntry.mk 4 0.25).batch_output = ((4 : ℤ) : ℚ) := by norm_num
  have h4 : (0 : ℚ) ≤ (RecipeEntry.mk 4 0.25).raw_per_batch := by norm_num
  exact ⟨h1, h2, by norm_num, h4, by norm_num, by norm_num,
    raw_units_needed_monotone _ "stick" _ 4 5 9 h1 h2 (by norm_num) h4
      (by norm_num) (by norm_num)⟩

/-- C9: the resolver does not check its quantity precondition: quantity `0`
returns `0.0` without error, and a negative quantity returns the
non-positive value `ceil(q / b) * r` without error. -/
theorem raw_units_needed_no_precondition_check :
    ∀ (m : Material) (item : String) (e : RecipeEntry) (b : ℤ),
      lookup' item m.recipes = some e →
      e.batch_output = (b : ℚ) → 1 ≤ b → 0 ≤ e.raw_per_batch →
      (m.raw_units_needed item 0 = .ok 0 ∧
       ∀ q : ℤ, q < 0 →
         ∃ v : ℚ,
           m.raw_units_needed item q = .ok v ∧
           v = (⌈(q : ℚ) / (b : ℚ)⌉ : ℚ) * e.raw_per_batch ∧
           v ≤ 0) := by
  intro m item e b hl hb hb1 hr
  have hb0 : b ≠ 0 := by omega
  have hbq : (0 : ℚ) < (b : ℚ) := cast_pos_of_one_le hb1
  constructor
  · rw [raw_units_needed_of_intCast m item 0 e b hl hb hb0]
    norm_num
  · intro q hq
    refine ⟨_, raw_units_needed_of_intCast m item q e b hl hb hb0, rfl, ?_⟩
    have hdiv : (q : ℚ) / (b : ℚ) ≤ 0 :=
      div_nonpos_of_nonpos_of_nonneg (by exact_mod_cast le_of_lt hq) (le_of_lt hbq)
    have hceil : ⌈(q : ℚ) / (b : ℚ)⌉ ≤ 0 := Int.ceil_le.mpr (by exact_mod_cast hdiv)
    exact mul_nonpos_of_nonpos_of_nonneg (by exact_mod_cast hceil) hr

/-- Witness for C9: quantity 0 and quantity -2 at the `plank` recipe. -/
theorem raw_units_needed_no_precondition_check_witness :
    lookup' "plank" (Material.mk "wood" [("plank", ⟨4, 1.0⟩)]).recipes =
        some (RecipeEntry.mk 4 1.0) ∧
    (RecipeEntry.mk 4 1.0).batch_output = ((4 : ℤ) : ℚ) ∧
    (1 : ℤ) ≤ 4 ∧
    (0 : ℚ) ≤ (RecipeEntry.mk 4 1.0).raw_per_batch ∧
    ((Material.mk "wood" [("plank", ⟨4, 1.0⟩)]).raw_units_needed "plank" 0 = .ok 0 ∧
     ∀ q : ℤ, q < 0 →
       ∃ v : ℚ,
         (Material.mk "wood" [("plank", ⟨4, 1.0⟩)]).raw_units_needed "plank" q = .ok v ∧
         v = (⌈(q : ℚ) / ((4 : ℤ) : ℚ)⌉ : ℚ) * (RecipeEntry.mk 4 1.0).raw_per_batch ∧
         v ≤ 0) := by
  have h1 : lookup' "plank" (Material.mk "wood" [("plank", ⟨4, 1.0⟩)]).recipes =
      some (RecipeEntry.mk 4 1.0) := by simp [lookup']
  have h2 : (RecipeEntry.mk 4 1.0).batch_output = ((4 : ℤ) : ℚ) := by norm_num
  have h4 : (0 : ℚ) ≤ (RecipeEntry.mk 4 1.0).raw_per_batch := by norm_num
  exact ⟨h1, h2, by norm_num, h4,
    raw_units_needed_no_precondition_check _ "plank" _ 4 h1 h2 (by norm_num) h4⟩

/-- C10: with `batch_output ≥ 1` the division in `raw_units_needed` is
well-defined and the call succeeds; the resolver does not validate the
invariant itself, and a recipe whose `batch_output` is `0` makes the call
raise `ZeroDivisionError`. -/
theorem raw_units_needed_div_by_zero :
    (∀ (m : Material) (item : String) (e : RecipeEntry) (b q : ℤ),
      lookup' item m.recipes = some e →
      e.batch_output = (b : ℚ) → 1 ≤ b →
      ∃ v : ℚ, m.raw_units_needed item q = .ok v) ∧
    (∀ (m : Material) (item : String) (e : RecipeEntry) (q : ℤ),
      lookup' item m.recipes = some e →
      e.batch_output = 0 →
      m.raw_units_needed item q = .error .zeroDivisionError) := by
  constructor
  · intro m item e b q hl hb hb1
    exact ⟨_, raw_units_needed_of_intCast m item q e b hl hb (by omega)⟩
  · intro m item e q hl hb
    unfold Material.raw_units_needed
    rw [hl]
    have h0 : int_py e.batch_output = 0 := by
      rw [hb]; simpa using int_py_intCast 0
    simp [h0]

/-- Witness for C10: a successful call on the valid `furnace` recipe and a
`ZeroDivisionError` on a recipe whose batch output is zero. -/
theorem raw_units_needed_div_by_zero_witness :
    lookup' "furnace" (Material.mk "cobblestone" [("furnace", ⟨1, 8.0⟩)]).recipes =
        some (RecipeEntry.mk 1 8.0) ∧
    (RecipeEntry.mk 1 8.0).batch_output = ((1 : ℤ) : ℚ) ∧
    (1 : ℤ) ≤ 1 ∧
    (∃ v : ℚ,
      (Material.mk "cobblestone" [("furnace", ⟨1, 8.0⟩)]).raw_units_needed "furnace" 3 =
        .ok v) ∧
    lookup' "broken" (Material.mk "bad" [("broken", ⟨0, 2.0⟩)]).recipes =
        some (RecipeEntry.mk 0 2.0) ∧
    (RecipeEntry.mk 0 2.0).batch_output = 0 ∧
    (Material.mk "bad" [("broken", ⟨0, 2.0⟩)]).raw_units_needed "broken" 3 =
      .error .zeroDivisionError := by
  have h1 : lookup' "furnace" (Material.mk "cobblestone" [("furnace", ⟨1, 8.0⟩)]).recipes =
      some (RecipeEntry.mk 1 8.0) := by simp [lookup']
  have h2 : (RecipeEntry.mk 1 8.0).batch_output = ((1 : ℤ) : ℚ) := by norm_num
  have h5 : lookup' "broken" (Material.mk "bad" [("broken", ⟨0, 2.0⟩)]).recipes =
      some (RecipeEntry.mk 0 2.0) := by simp [lookup']
  have h6 : (RecipeEntry.mk 0 2.0).batch_output = 0 := by norm_num
  exact ⟨h1, h2, le_rfl,
    raw_units_needed_div_by_zero.1 _ "furnace" _ 1 3 h1 h2 le_rfl, h5, h6,
    raw_units_needed_div_by_zero.2 _ "broken" _ 3 h5 h6⟩

/-- C2: when the configuration source is missing or fails to parse, the
constructor yields (without raising) exactly the built-in default catalog:
wood with plank (4, 1.0), stick (4, 0.25), door (3, 1.5), and cobblestone
with furnace (1, 8.0). -/
theorem init_fallback_default :
    calculatorMaterials .missing =
      [("wood", Material.mk "wood"
          [("plank", ⟨4, 1.0⟩), ("stick", ⟨4, 0.25⟩), ("door", ⟨3, 1.5⟩)]),
       ("cobblestone", Material.mk "cobblestone" [("furnace", ⟨1, 8.0⟩)])] ∧
    calculatorMaterials .malformed = calculatorMaterials .missing := by
  constructor <;> rfl

/-- C6: the material-listing operation presents the material names of any
catalog in sorted order. -/
theorem list_materials_sorted :
    ∀ materials : List (String × Material),
      List.Sorted (· ≤ ·) (list_materials materials) := by
  intro materials
  exact List.sorted_mergeSort' (materials.map Prod.fst)

/-- The default `wood` material, as built by the constructor fallback. -/
def woodMaterial : Material :=
  Material.mk "wood" [("plank", ⟨4, 1.0⟩), ("stick", ⟨4, 0.25⟩), ("door", ⟨3, 1.5⟩)]

/-- C7: the claim fails on the code.  The console script `wood`, `plank`,
`²` reaches the quantity prompt; `²` (U+00B2, Numeric_Type=Digit) passes
the `isdigit()` gate, so the short-circuit `or` evaluates `int("²")`,
which raises a `ValueError` that nothing catches: the session dies with a
fatal error instead of returning to the material-selection prompt. -/
theorem run_fatal_on_superscript_quantity :
    str_isdigit_py "²" = true ∧
    int_of_digits? "²" = none ∧
    runSession (calculatorMaterials .missing) .selectMaterial
        ["wood", "plank", "²"] = .error (.valueErrorInt "²") :=
  ⟨rfl, rfl, rfl⟩

/-- C8: the claim fails on the code.  At the quantity prompt the line `²`
is neither accepted nor rejected: `isdigit()` passes and `int()` raises an
uncaught `ValueError` (fatal), where the claim requires a rejection with a
diagnostic.  By contrast the Unicode decimal line `٥` (Arabic-Indic five)
and the formfeed-padded line `"\x0c5"` are both stripped/parsed to 5,
accepted, and routed to the resolver, which answers 2.0 for `plank`. -/
theorem quantity_gate_crash :
    step [] (.enterQuantity "wood" woodMaterial "plank") "²" =
      .error (.valueErrorInt "²") ∧
    step [] (.enterQuantity "wood" woodMaterial "plank") "٥" =
      .ok (.selectMaterial, .result 2) ∧
    step [] (.enterQuantity "wood" woodMaterial "plank") "\x0c5" =
      .ok (.selectMaterial, .result 2) := by
  have hr : woodMaterial.raw_units_needed "plank" 5 = .ok 2 := by
    norm_num [Material.raw_units_needed, lookup', int_py, woodMaterial]
    rw [(by norm_num [Int.ceil_eq_iff] : ⌈(5 : ℚ) / 4⌉ = (2 : ℤ))]
    norm_num
  refine ⟨rfl, ?_, ?_⟩
  · calc step [] (.enterQuantity "wood" woodMaterial "plank") "٥"
        = (match woodMaterial.raw_units_needed "plank" 5 with
            | .error e => .error e
            | .ok v => .ok (.selectMaterial, .result v)) := rfl
      _ = .ok (.selectMaterial, .result 2) := by rw [hr]
  · calc step [] (.enterQuantity "wood" woodMaterial "plank") "\x0c5"
        = (match woodMaterial.raw_units_needed "plank" 5 with
            | .error e => .error e
            | .ok v => .ok (.selectMaterial, .result v)) := rfl
      _ = .ok (.selectMaterial, .result 2) := by rw [hr]
